import Mathlib

/-!
Shallow embedding of the crabcamera frame-quality validation and
quality-gated auto-capture engine (src/quality/{blur,exposure,validator}.rs
and src/commands/quality.rs), with theorems settling the frozen claims.

Modelling conventions:
* Rust `f32`/`f64` arithmetic is modelled over `ℚ` with the source's exact
  decimal constants; all claims settled here are robust to floating-point
  rounding (they rely on lookup tables, clamps, and comparisons with large
  margins at every concrete input used).
* `f32::sqrt` is modelled by `ratSqrt`, a deterministic rational
  under-approximation of the real square root; every claim settled here is
  insensitive to the precision of the square root (its result only flows
  into clamped values or is compared with wide margins).
* Rust byte buffers (`Vec<u8>`) are `List ℕ` with the well-formedness
  predicate `byteOK` (every element < 256) where it matters.
* The source's `if pixel_index < len` guards before indexing are modelled by
  `List.getD _ 0`, which returns 0 out of range exactly as the guarded
  accumulation contributes 0.  Unguarded out-of-range indexing in the source
  (a Rust panic) can only occur for buffers whose length is not a multiple
  of 3; theorems that depend on pixel content always assume the frame-shape
  invariant, under which every unguarded access is in range.
* `for y in 1..(height-1)` with `u32` arithmetic is modelled with the
  natural-number range that is empty for `height ≤ 1`, matching the source
  for every `height ≥ 1`.
-/

namespace Crabcamera

/-- Rust `x.clamp(lo, hi)` on rationals. -/
def ratClamp (x lo hi : ℚ) : ℚ := if x < lo then lo else if hi < x then hi else x

/-- Rust `f32::abs` on rationals. -/
def ratAbs (x : ℚ) : ℚ := if x < 0 then -x else x

/-- Rust `f32::max` on rationals. -/
def ratMax (x y : ℚ) : ℚ := if x < y then y else x

/-- Rust `f32::min` on rationals. -/
def ratMin (x y : ℚ) : ℚ := if y < x then y else x

/-- Fuel-bounded Newton iteration for the integer square root (structural
recursion so that concrete witnesses evaluate by kernel reduction). -/
def isqrtGo (n : ℕ) : ℕ → ℕ → ℕ
  | 0, x => x
  | fuel + 1, x =>
      let next := (x + n / x) / 2
      if next < x then isqrtGo n fuel next else x

/-- Integer square root (equal to `⌊√n⌋`; the fuel `n` dominates the
logarithmic number of Newton steps). -/
def isqrt (n : ℕ) : ℕ := if n ≤ 1 then n else isqrtGo n n (n / 2)

/-- Deterministic rational model of `f32::sqrt` (floor of the real square
root at denominator precision).  Nonpositive inputs map to 0.  Every claim
settled in this file is insensitive to the rounding of this model. -/
def ratSqrt (q : ℚ) : ℚ :=
  if q ≤ 0 then 0 else (isqrt (q.num.toNat * q.den) : ℚ) / (q.den : ℚ)

/-- Every byte of the buffer is a valid `u8` value. -/
def byteOK (d : List ℕ) : Prop := ∀ x ∈ d, x < 256

/-- Population mean of a rational list (0 for the empty list, as in the
source's guarded divisions). -/
def listMean (xs : List ℚ) : ℚ :=
  if xs.isEmpty then 0 else xs.sum / (xs.length : ℚ)

/-- Population variance of a rational list (0 for the empty list). -/
def listVariance (xs : List ℚ) : ℚ :=
  if xs.isEmpty then 0
  else ((xs.map (fun x => (x - listMean xs) * (x - listMean xs))).sum) /
    (xs.length : ℚ)

/-- `types.rs::CameraFrame`, restricted to the fields the quality engine
reads (`data`, `width`, `height`); the identification and metadata fields
(`id`, `format`, `timestamp`, `device_id`, `size_bytes`, `metadata`) are
never consulted by any analyzed operation. -/
structure CameraFrame where
  data : List ℕ
  width : ℕ
  height : ℕ
  deriving DecidableEq, Repr

/-- The frame-shape invariant of spec §3: positive dimensions, nonempty
tightly-packed RGB buffer of exactly `width*height*3` bytes. -/
def frameWellFormed (f : CameraFrame) : Prop :=
  f.data ≠ [] ∧ 0 < f.width ∧ 0 < f.height ∧
    f.data.length = (f.width * f.height * 3) ∧ byteOK f.data

instance (f : CameraFrame) : Decidable (frameWellFormed f) := by
  unfold frameWellFormed byteOK; infer_instance

/-! ## Blur analyzer (`src/quality/blur.rs`) -/

/-- `blur.rs::BlurLevel`. -/
inductive BlurLevel where
  | Sharp | Good | Moderate | Blurry | VeryBlurry
  deriving DecidableEq, Repr

/-- `BlurLevel::from_variance`. -/
def BlurLevel.from_variance (variance : ℚ) : BlurLevel :=
  if 1000 < variance then .Sharp
  else if 500 < variance then .Good
  else if 200 < variance then .Moderate
  else if 50 < variance then .Blurry
  else .VeryBlurry

/-- `BlurLevel::quality_score`. -/
def BlurLevel.quality_score : BlurLevel → ℚ
  | .Sharp => 1
  | .Good => 8/10
  | .Moderate => 6/10
  | .Blurry => 3/10
  | .VeryBlurry => 1/10

/-- `blur.rs::BlurMetrics`. -/
structure BlurMetrics where
  variance : ℚ
  gradient_magnitude : ℚ
  edge_density : ℚ
  blur_level : BlurLevel
  quality_score : ℚ
  deriving DecidableEq, Repr

/-- `blur.rs::BlurDetector` (the thresholds are only read by
`is_acceptable_quality`, which the validator never calls). -/
structure BlurDetector where
  threshold_variance : ℚ
  threshold_gradient : ℚ
  deriving DecidableEq, Repr

/-- `BlurDetector::default`. -/
def BlurDetector.default : BlurDetector := ⟨200, 50⟩

/-- `BlurDetector::rgb_to_grayscale`: BT.601 luminance
`(0.299·R + 0.587·G + 0.114·B) as u8` per packed RGB triple (the `width`
and `height` arguments of the source are only used for a capacity hint).
A trailing partial triple (impossible under the frame invariant; an
out-of-bounds panic in the source) is padded with zeros. -/
def rgb_to_grayscale : List ℕ → List ℕ
  | r :: g :: b :: rest =>
      (⌊(299 * (r : ℚ) + 587 * (g : ℚ) + 114 * (b : ℚ)) / 1000⌋).toNat ::
        rgb_to_grayscale rest
  | [] => []
  | [r] => [(⌊(299 * (r : ℚ)) / 1000⌋).toNat]
  | [r, g] => [(⌊(299 * (r : ℚ) + 587 * (g : ℚ)) / 1000⌋).toNat]

/-- The interior pixel coordinates `(y, x)` with `1 ≤ y < h-1`,
`1 ≤ x < w-1`, in the source's row-major iteration order. -/
def interior (w h : ℕ) : List (ℕ × ℕ) :=
  (List.range (h - 2)).flatMap fun dy =>
    (List.range (w - 2)).map fun dx => (dy + 1, dx + 1)

/-- A 3×3 convolution at interior pixel `(y, x)`: the source's guarded
`if pixel_index < len` accumulation is `getD _ 0`. -/
def convolve3 (g : List ℕ) (w : ℕ) (y x : ℕ) (ker : List ℤ) : ℤ :=
  ((List.range 3).flatMap fun ky => (List.range 3).map fun kx => (ky, kx)).foldl
    (fun sum p =>
      sum + (g.getD ((y + p.1 - 1) * w + (x + p.2 - 1)) 0 : ℤ) *
        ker.getD (p.1 * 3 + p.2) 0) 0

/-- The Laplacian kernel of `calculate_laplacian_variance`. -/
def lapKernel : List ℤ := [0, -1, 0, -1, 4, -1, 0, -1, 0]

/-- Sobel X kernel. -/
def sobelXKernel : List ℤ := [-1, 0, 1, -2, 0, 2, -1, 0, 1]

/-- Sobel Y kernel. -/
def sobelYKernel : List ℤ := [-1, -2, -1, 0, 0, 0, 1, 2, 1]

/-- The signed Laplacian outputs collected by
`calculate_laplacian_variance`. -/
def laplacianValues (g : List ℕ) (w h : ℕ) : List ℤ :=
  (interior w h).map fun p => convolve3 g w p.1 p.2 lapKernel

/-- `BlurDetector::calculate_laplacian_variance`: population variance of
the Laplacian outputs, 0 when there are no interior pixels. -/
def calculate_laplacian_variance (g : List ℕ) (w h : ℕ) : ℚ :=
  listVariance ((laplacianValues g w h).map fun z => (z : ℚ))

/-- `BlurDetector::calculate_sobel_gradient`: mean of
`sqrt(gx² + gy²)` over interior pixels, 0 when there are none. -/
def calculate_sobel_gradient (g : List ℕ) (w h : ℕ) : ℚ :=
  listMean ((interior w h).map fun p =>
    let gx := convolve3 g w p.1 p.2 sobelXKernel
    let gy := convolve3 g w p.1 p.2 sobelYKernel
    ratSqrt ((gx * gx + gy * gy : ℤ) : ℚ))

/-- `BlurDetector::calculate_edge_density`: fraction of interior pixels
(whose center index is in range) whose maximal absolute difference to an
in-range 8-neighbor exceeds 50. -/
def calculate_edge_density (g : List ℕ) (w h : ℕ) : ℚ :=
  let cells := (interior w h).filter fun p => p.1 * w + p.2 < g.length
  let isEdge := fun (p : ℕ × ℕ) =>
    let y := p.1
    let x := p.2
    let c : ℤ := (g.getD (y * w + x) 0 : ℤ)
    let neighbors := [(y - 1) * w + (x - 1), (y - 1) * w + x,
      (y - 1) * w + (x + 1), y * w + (x - 1), y * w + (x + 1),
      (y + 1) * w + (x - 1), (y + 1) * w + x, (y + 1) * w + (x + 1)]
    let maxDiff := neighbors.foldl
      (fun m idx => if idx < g.length
        then max m (c - (g.getD idx 0 : ℤ)).natAbs else m) 0
    decide (50 < maxDiff)
  if cells.length = 0 then 0
  else ((cells.countP isEdge : ℚ) / (cells.length : ℚ))

/-- `BlurDetector::analyze_frame`. -/
def BlurDetector.analyze_frame (_d : BlurDetector) (frame : CameraFrame) :
    BlurMetrics :=
  let g := rgb_to_grayscale frame.data
  let variance := calculate_laplacian_variance g frame.width frame.height
  let gradient_magnitude := calculate_sobel_gradient g frame.width frame.height
  let edge_density := calculate_edge_density g frame.width frame.height
  let blur_level := BlurLevel.from_variance variance
  { variance := variance
    gradient_magnitude := gradient_magnitude
    edge_density := edge_density
    blur_level := blur_level
    quality_score := blur_level.quality_score }

/-! ## Exposure analyzer (`src/quality/exposure.rs`) -/

/-- `exposure.rs::ExposureLevel`. -/
inductive ExposureLevel where
  | Underexposed | SlightlyDark | WellExposed | SlightlyBright | Overexposed
  deriving DecidableEq, Repr

/-- `ExposureLevel::from_brightness`. -/
def ExposureLevel.from_brightness (brightness : ℚ) : ExposureLevel :=
  if brightness < 2/10 then .Underexposed
  else if brightness < 35/100 then .SlightlyDark
  else if brightness < 65/100 then .WellExposed
  else if brightness < 8/10 then .SlightlyBright
  else .Overexposed

/-- `ExposureLevel::quality_score`. -/
def ExposureLevel.quality_score : ExposureLevel → ℚ
  | .WellExposed => 1
  | .SlightlyDark => 8/10
  | .SlightlyBright => 8/10
  | .Underexposed => 3/10
  | .Overexposed => 3/10

/-- `exposure.rs::ExposureMetrics`. -/
structure ExposureMetrics where
  mean_brightness : ℚ
  brightness_std : ℚ
  histogram : List ℕ
  dark_pixel_ratio : ℚ
  bright_pixel_ratio : ℚ
  dynamic_range : ℚ
  exposure_level : ExposureLevel
  quality_score : ℚ
  deriving DecidableEq, Repr

/-- `exposure.rs::ExposureAnalyzer` with its dark/bright pixel
thresholds. -/
structure ExposureAnalyzer where
  dark_threshold : ℕ
  bright_threshold : ℕ
  deriving DecidableEq, Repr

/-- `ExposureAnalyzer::default`: thresholds 30 and 225. -/
def ExposureAnalyzer.default : ExposureAnalyzer := ⟨30, 225⟩

/-- `ExposureAnalyzer::rgb_to_luminance`: BT.709 luminance
`(0.2126·R + 0.7152·G + 0.0722·B) as u8` per packed RGB triple; a trailing
partial triple (a panic in the source) is padded with zeros. -/
def rgb_to_luminance : List ℕ → List ℕ
  | r :: g :: b :: rest =>
      (⌊(2126 * (r : ℚ) + 7152 * (g : ℚ) + 722 * (b : ℚ)) / 10000⌋).toNat ::
        rgb_to_luminance rest
  | [] => []
  | [r] => [(⌊(2126 * (r : ℚ)) / 10000⌋).toNat]
  | [r, g] => [(⌊(2126 * (r : ℚ) + 7152 * (g : ℚ)) / 10000⌋).toNat]

/-- `ExposureAnalyzer::calculate_histogram`: 256 bins; bin `v` counts the
luminance pixels of value `v`. -/
def calculate_histogram (lum : List ℕ) : List ℕ :=
  (List.range 256).map fun v => lum.count v

/-- `ExposureAnalyzer::calculate_mean_brightness`. -/
def calculate_mean_brightness (lum : List ℕ) : ℚ :=
  if lum.isEmpty then 0 else (lum.sum : ℚ) / ((lum.length : ℚ) * 255)

/-- `ExposureAnalyzer::calculate_brightness_std`: population standard
deviation in the 0–255 domain, normalized by 255. -/
def calculate_brightness_std (lum : List ℕ) (mean : ℚ) : ℚ :=
  if lum.isEmpty then 0
  else
    let mean255 := mean * 255
    let variance :=
      ((lum.map fun x => ((x : ℚ) - mean255) * ((x : ℚ) - mean255)).sum) /
        (lum.length : ℚ)
    ratSqrt variance / 255

/-- `ExposureAnalyzer::calculate_dark_pixel_ratio`. -/
def calculate_dark_pixel_ratio (a : ExposureAnalyzer) (lum : List ℕ) : ℚ :=
  if lum.isEmpty then 0
  else ((lum.countP fun x => decide (x < a.dark_threshold)) : ℚ) /
    (lum.length : ℚ)

/-- `ExposureAnalyzer::calculate_bright_pixel_ratio`. -/
def calculate_bright_pixel_ratio (a : ExposureAnalyzer) (lum : List ℕ) : ℚ :=
  if lum.isEmpty then 0
  else ((lum.countP fun x => decide (a.bright_threshold < x)) : ℚ) /
    (lum.length : ℚ)

/-- The source's first histogram scan: the lowest populated bin when it is
below 255, otherwise the initial value 255 (the loop records an index only
when it is `< min_value`). -/
def minPopBin (hist : List ℕ) : ℕ :=
  let i := hist.findIdx fun c => decide (0 < c)
  if i < 255 then i else 255

/-- The source's reverse histogram scan: the highest populated bin when it
is above 0, otherwise the initial value 0. -/
def maxPopBin (hist : List ℕ) : ℕ :=
  let j := hist.reverse.findIdx fun c => decide (0 < c)
  if j < 255 then 255 - j else 0

/-- `ExposureAnalyzer::calculate_dynamic_range`. -/
def calculate_dynamic_range (hist : List ℕ) : ℚ :=
  let lo := minPopBin hist
  let hi := maxPopBin hist
  if lo < hi then ((hi - lo : ℕ) : ℚ) / 255 else 0

/-- `ExposureAnalyzer::calculate_quality_score`: 60% exposure-level score,
25% contrast band, 15% dynamic-range band, clamped. -/
def exposure_quality_score (level : ExposureLevel) (brightness_std : ℚ)
    (dynamic_range : ℚ) : ℚ :=
  let exposure_score := level.quality_score
  let contrast_score :=
    if 15/100 < brightness_std ∧ brightness_std < 35/100 then 1
    else if 1/10 < brightness_std ∧ brightness_std < 4/10 then 8/10
    else 1/2
  let range_score :=
    if 7/10 < dynamic_range then 1
    else if 1/2 < dynamic_range then 8/10
    else if 3/10 < dynamic_range then 6/10
    else 4/10
  ratClamp (exposure_score * (6/10) + contrast_score * (25/100) +
    range_score * (15/100)) 0 1

/-- `ExposureAnalyzer::analyze_frame`. -/
def ExposureAnalyzer.analyze_frame (a : ExposureAnalyzer)
    (frame : CameraFrame) : ExposureMetrics :=
  let lum := rgb_to_luminance frame.data
  let histogram := calculate_histogram lum
  let mean_brightness := calculate_mean_brightness lum
  let brightness_std := calculate_brightness_std lum mean_brightness
  let dark_pixel_ratio := calculate_dark_pixel_ratio a lum
  let bright_pixel_ratio := calculate_bright_pixel_ratio a lum
  let dynamic_range := calculate_dynamic_range histogram
  let exposure_level := ExposureLevel.from_brightness mean_brightness
  { mean_brightness := mean_brightness
    brightness_std := brightness_std
    histogram := histogram
    dark_pixel_ratio := dark_pixel_ratio
    bright_pixel_ratio := bright_pixel_ratio
    dynamic_range := dynamic_range
    exposure_level := exposure_level
    quality_score :=
      exposure_quality_score exposure_level brightness_std dynamic_range }

/-! ## Quality validator (`src/quality/validator.rs`) -/

/-- `validator.rs::QualityScore`. -/
structure QualityScore where
  overall : ℚ
  blur : ℚ
  exposure : ℚ
  composition : ℚ
  technical : ℚ
  deriving DecidableEq, Repr

/-- `QualityScore::new`: the overall score is the fixed weighted sum
clamped to `[0,1]`. -/
def QualityScore.new (blur exposure composition technical : ℚ) :
    QualityScore :=
  { overall := ratClamp (blur * (35/100) + exposure * (35/100) +
      composition * (15/100) + technical * (15/100)) 0 1
    blur := blur
    exposure := exposure
    composition := composition
    technical := technical }

/-- `QualityScore::meets_threshold`. -/
def QualityScore.meets_threshold (s : QualityScore) (threshold : ℚ) : Bool :=
  decide (threshold ≤ s.overall)

/-- `validator.rs::QualityGrade`. -/
inductive QualityGrade where
  | Excellent | VeryGood | Good | Fair | Poor | VeryPoor
  deriving DecidableEq, Repr

/-- The position of a grade in the spec's ordered band table
(higher = better); used to state monotonicity. -/
def QualityGrade.rank : QualityGrade → ℕ
  | .VeryPoor => 0
  | .Poor => 1
  | .Fair => 2
  | .Good => 3
  | .VeryGood => 4
  | .Excellent => 5

/-- The if-chain of `QualityScore::get_grade`, as a function of the
overall score it reads. -/
def gradeOfOverall (overall : ℚ) : QualityGrade :=
  if 9/10 ≤ overall then .Excellent
  else if 8/10 ≤ overall then .VeryGood
  else if 7/10 ≤ overall then .Good
  else if 6/10 ≤ overall then .Fair
  else if 4/10 ≤ overall then .Poor
  else .VeryPoor

/-- `QualityScore::get_grade`. -/
def QualityScore.get_grade (s : QualityScore) : QualityGrade :=
  gradeOfOverall s.overall

/-- `validator.rs::ColorDistribution`. -/
structure ColorDistribution where
  red_mean : ℚ
  green_mean : ℚ
  blue_mean : ℚ
  saturation_mean : ℚ
  color_balance_score : ℚ
  deriving DecidableEq, Repr

/-- `validator.rs::TechnicalDetails`. -/
structure TechnicalDetails where
  resolution : ℕ × ℕ
  pixel_count : ℕ
  aspect_ratio : ℚ
  noise_estimate : ℚ
  color_distribution : ColorDistribution
  deriving DecidableEq, Repr

/-- `validator.rs::ValidationConfig`. -/
structure ValidationConfig where
  blur_threshold : ℚ
  exposure_threshold : ℚ
  overall_threshold : ℚ
  min_resolution : ℕ × ℕ
  max_noise_level : ℚ
  deriving DecidableEq, Repr

/-- `ValidationConfig::default`. -/
def ValidationConfig.default : ValidationConfig :=
  { blur_threshold := 6/10
    exposure_threshold := 6/10
    overall_threshold := 7/10
    min_resolution := (640, 480)
    max_noise_level := 3/10 }

/-- `validator.rs::QualityValidator`. -/
structure QualityValidator where
  blur_detector : BlurDetector
  exposure_analyzer : ExposureAnalyzer
  config : ValidationConfig
  deriving DecidableEq, Repr

/-- `QualityValidator::default`. -/
def QualityValidator.default : QualityValidator :=
  ⟨BlurDetector.default, ExposureAnalyzer.default, ValidationConfig.default⟩

/-- `QualityValidator::new`: custom configuration, default analyzers. -/
def QualityValidator.new (config : ValidationConfig) : QualityValidator :=
  ⟨BlurDetector.default, ExposureAnalyzer.default, config⟩

/-- The local luminance variance of the three consecutive RGB pixels
starting at byte index `i` (in range whenever `i + 8 < length`, which the
caller checks exactly as the source does). -/
def tripletVariance (d : List ℕ) (i : ℕ) : ℚ :=
  let p1 := ((d.getD i 0 : ℚ) + (d.getD (i+1) 0 : ℚ) + (d.getD (i+2) 0 : ℚ)) / 3
  let p2 := ((d.getD (i+3) 0 : ℚ) + (d.getD (i+4) 0 : ℚ) + (d.getD (i+5) 0 : ℚ)) / 3
  let p3 := ((d.getD (i+6) 0 : ℚ) + (d.getD (i+7) 0 : ℚ) + (d.getD (i+8) 0 : ℚ)) / 3
  listVariance [p1, p2, p3]

/-- The byte indices visited by `(0..len).step_by(300)`. -/
def strideIndices (len : ℕ) : List ℕ :=
  (List.range ((len + 299) / 300)).map (· * 300)

/-- `QualityValidator::estimate_noise_level`: 1.0 for buffers under 9
bytes, else the mean of sampled local variances normalized by 255 and
clamped to `[0,1]` (0.5 if no sample qualifies, which cannot happen once
the length is ≥ 9). -/
def estimate_noise_level (d : List ℕ) : ℚ :=
  if d.length < 9 then 1
  else
    let noise_values := (strideIndices d.length).filterMap fun i =>
      if i + 8 < d.length then some (tripletVariance d i) else none
    if noise_values.isEmpty then 1/2
    else ratClamp (listMean noise_values / 255) 0 1

/-- `QualityValidator::analyze_color_distribution`. -/
def analyze_color_distribution (d : List ℕ) : ColorDistribution :=
  if d.isEmpty then
    { red_mean := 0, green_mean := 0, blue_mean := 0,
      saturation_mean := 0, color_balance_score := 0 }
  else
    let idxs := (List.range ((d.length + 2) / 3)).map (· * 3)
    let pixel_count := d.length / 3
    let red_sum : ℕ := (idxs.map fun i => d.getD i 0).sum
    let green_sum : ℕ := (idxs.map fun i => d.getD (i+1) 0).sum
    let blue_sum : ℕ := (idxs.map fun i => d.getD (i+2) 0).sum
    let saturation_sum : ℚ := (idxs.map fun i =>
      let r := (d.getD i 0 : ℚ)
      let g := (d.getD (i+1) 0 : ℚ)
      let b := (d.getD (i+2) 0 : ℚ)
      let max_val := ratMax r (ratMax g b)
      let min_val := ratMin r (ratMin g b)
      if 0 < max_val then (max_val - min_val) / max_val else 0).sum
    let red_mean := (red_sum : ℚ) / ((pixel_count : ℚ) * 255)
    let green_mean := (green_sum : ℚ) / ((pixel_count : ℚ) * 255)
    let blue_mean := (blue_sum : ℚ) / ((pixel_count : ℚ) * 255)
    let color_variance := listVariance [red_mean, green_mean, blue_mean]
    { red_mean := red_mean
      green_mean := green_mean
      blue_mean := blue_mean
      saturation_mean := saturation_sum / (pixel_count : ℚ)
      color_balance_score := ratClamp (1 - ratSqrt color_variance) 0 1 }

/-- `QualityValidator::analyze_technical_aspects` (the aspect ratio of a
zero-height frame, a non-finite float in the source, is 0 here; no claim
evaluates it). -/
def analyze_technical_aspects (frame : CameraFrame) : TechnicalDetails :=
  { resolution := (frame.width, frame.height)
    pixel_count := frame.width * frame.height
    aspect_ratio := (frame.width : ℚ) / (frame.height : ℚ)
    noise_estimate := estimate_noise_level frame.data
    color_distribution := analyze_color_distribution frame.data }

/-- `QualityValidator::analyze_composition` (the initial `0.5` base score
of the source is dead, overwritten by the final assignment; the `frame`
argument is unused by the source body, which reads
`technical.resolution`). -/
def analyze_composition (cfg : ValidationConfig)
    (technical : TechnicalDetails) : ℚ :=
  let resolution_score : ℚ :=
    if cfg.min_resolution.1 ≤ technical.resolution.1 ∧
        cfg.min_resolution.2 ≤ technical.resolution.2 then 1 else 6/10
  let aspect_ratio_score : ℚ :=
    if ratAbs (technical.aspect_ratio - 16/9) < 1/10 then 1
    else if ratAbs (technical.aspect_ratio - 4/3) < 1/10 then 9/10
    else if ratAbs (technical.aspect_ratio - 3/2) < 1/10 then 8/10
    else 6/10
  let color_score := technical.color_distribution.color_balance_score
  ratClamp (resolution_score * (4/10) + aspect_ratio_score * (3/10) +
    color_score * (3/10)) 0 1

/-- `QualityValidator::generate_recommendations`. -/
def generate_recommendations (cfg : ValidationConfig)
    (blur_metrics : BlurMetrics) (exposure_metrics : ExposureMetrics)
    (technical : TechnicalDetails) : List String :=
  let recs : List String :=
    (match blur_metrics.blur_level with
      | .Blurry | .VeryBlurry =>
        ["Image is blurry. Try stabilizing the camera or using faster shutter speed."]
      | _ => []) ++
    (match exposure_metrics.exposure_level with
      | .Underexposed =>
        ["Image is underexposed. Increase exposure time, ISO, or add lighting."]
      | .Overexposed =>
        ["Image is overexposed. Decrease exposure time, lower ISO, or reduce lighting."]
      | _ => []) ++
    (if cfg.max_noise_level < technical.noise_estimate then
      ["High noise detected. Consider lowering ISO or improving lighting conditions."]
     else []) ++
    (if technical.resolution.1 < cfg.min_resolution.1 ∨
        technical.resolution.2 < cfg.min_resolution.2 then
      ["Low resolution detected. Consider using higher resolution settings."]
     else []) ++
    (if technical.color_distribution.color_balance_score < 6/10 then
      ["Poor color balance detected. Check white balance settings or lighting conditions."]
     else [])
  if recs.isEmpty then
    ["Image quality is good. No specific improvements needed."]
  else recs

/-- `QualityValidator::is_frame_acceptable`: the five-way conjunction. -/
def is_frame_acceptable (cfg : ValidationConfig)
    (quality_score : QualityScore) (technical : TechnicalDetails) : Bool :=
  decide (cfg.overall_threshold ≤ quality_score.overall) &&
  decide (cfg.blur_threshold ≤ quality_score.blur) &&
  decide (cfg.exposure_threshold ≤ quality_score.exposure) &&
  decide (cfg.min_resolution.1 ≤ technical.resolution.1) &&
  decide (cfg.min_resolution.2 ≤ technical.resolution.2) &&
  decide (technical.noise_estimate ≤ cfg.max_noise_level)

/-- `validator.rs::QualityReport`. -/
structure QualityReport where
  score : QualityScore
  grade : QualityGrade
  blur_metrics : BlurMetrics
  exposure_metrics : ExposureMetrics
  recommendations : List String
  is_acceptable : Bool
  technical_details : TechnicalDetails
  deriving DecidableEq, Repr

/-- `QualityValidator::validate_frame`.  The technical sub-score passed to
`QualityScore::new` is the raw `noise_estimate` (the source comment says
"inverted noise" but no inversion is performed). -/
def validate_frame (v : QualityValidator) (frame : CameraFrame) :
    QualityReport :=
  let blur_metrics := v.blur_detector.analyze_frame frame
  let exposure_metrics := v.exposure_analyzer.analyze_frame frame
  let technical_details := analyze_technical_aspects frame
  let composition_score := analyze_composition v.config technical_details
  let quality_score := QualityScore.new blur_metrics.quality_score
    exposure_metrics.quality_score composition_score
    technical_details.noise_estimate
  { score := quality_score
    grade := quality_score.get_grade
    blur_metrics := blur_metrics
    exposure_metrics := exposure_metrics
    recommendations := generate_recommendations v.config blur_metrics
      exposure_metrics technical_details
    is_acceptable := is_frame_acceptable v.config quality_score
      technical_details
    technical_details := technical_details }

/-! ## Command layer (`src/commands/quality.rs`)

The external capture collaborator is modelled as an oracle
`cap : ℕ → Except String CameraFrame` giving the outcome of the capture
issued on each 1-based attempt number; the wall clock of the
threshold-gated operation is modelled as an oracle `timedOut : ℕ → Bool`
giving the result of the `elapsed ≥ timeout` check at the top of each
iteration.  The global validator behind the `RwLock` is passed as the
snapshot the command reads. -/

/-- `commands/quality.rs::ValidationConfigDto`. -/
structure ValidationConfigDto where
  blur_threshold : ℚ
  exposure_threshold : ℚ
  overall_threshold : ℚ
  min_width : ℕ
  min_height : ℕ
  max_noise_level : ℚ
  deriving DecidableEq, Repr

/-- The `ValidationConfig` built from a DTO by `update_quality_config`. -/
def configOfDto (c : ValidationConfigDto) : ValidationConfig :=
  { blur_threshold := c.blur_threshold
    exposure_threshold := c.exposure_threshold
    overall_threshold := c.overall_threshold
    min_resolution := (c.min_width, c.min_height)
    max_noise_level := c.max_noise_level }

/-- The DTO view of a `ValidationConfig`, as built by
`get_quality_config`. -/
def dtoOfConfig (c : ValidationConfig) : ValidationConfigDto :=
  { blur_threshold := c.blur_threshold
    exposure_threshold := c.exposure_threshold
    overall_threshold := c.overall_threshold
    min_width := c.min_resolution.1
    min_height := c.min_resolution.2
    max_noise_level := c.max_noise_level }

/-- `update_quality_config`: replaces the global validator with a fresh
one built from the DTO and reports success.  Returns the new global state
together with the command's result. -/
def update_quality_config (config : ValidationConfigDto)
    (_state : QualityValidator) : QualityValidator × Except String String :=
  (QualityValidator.new (configOfDto config),
    .ok "Quality validation configuration updated")

/-- `get_quality_config`: the source returns the default configuration
unconditionally ("Return default config for now"), ignoring the global
state. -/
def get_quality_config (_state : QualityValidator) :
    Except String ValidationConfigDto :=
  .ok (dtoOfConfig ValidationConfig.default)

/-- `validate_provided_frame`: validates the supplied frame directly;
there is no frame-shape check in the source. -/
def validate_provided_frame (state : QualityValidator)
    (frame : CameraFrame) : Except String QualityReport :=
  .ok (validate_frame state frame)

/-- `commands/quality.rs::CaptureQualityResult`. -/
structure CaptureQualityResult where
  frame : CameraFrame
  quality_report : QualityReport
  attempts_used : ℕ
  deriving DecidableEq, Repr

/-- The loop body of `capture_best_quality_frame` over the list of capture
outcomes of the planned attempts, tracking the best frame/report pair and
its score; a score reaching 0.9 breaks out early. -/
def bestOfLoop (v : QualityValidator) :
    List (Except String CameraFrame) →
    Option (CameraFrame × QualityReport) → ℚ →
    Option (CameraFrame × QualityReport)
  | [], best, _ => best
  | .error _ :: rest, best, bestScore => bestOfLoop v rest best bestScore
  | .ok f :: rest, best, bestScore =>
      let report := validate_frame v f
      let best' := if bestScore < report.score.overall
        then some (f, report) else best
      let score' := if bestScore < report.score.overall
        then report.score.overall else bestScore
      if 9/10 ≤ score' then best'
      else bestOfLoop v rest best' score'

/-- `capture_best_quality_frame`: up to `min(n, 10)` attempts (default 5)
keeping the best-scoring validated frame; `attempts_used` in the result is
the full planned budget. -/
def capture_best_quality_frame (v : QualityValidator)
    (num_attempts : Option ℕ) (cap : ℕ → Except String CameraFrame) :
    Except String CaptureQualityResult :=
  let attempts := min (num_attempts.getD 5) 10
  match bestOfLoop v ((List.range attempts).map fun i => cap (i+1)) none 0 with
  | some (f, r) => .ok ⟨f, r, attempts⟩
  | none => .error "Failed to capture any valid frames"

/-- Specification-side mirror of the best-of-N loop: the reports of the
attempts the loop actually validates before stopping (capture failures are
skipped; validation stops after a report pushes the running best score to
0.9 or beyond). -/
def bestOfProcessed (v : QualityValidator) :
    List (Except String CameraFrame) → ℚ → List QualityReport
  | [], _ => []
  | .error _ :: rest, bestScore => bestOfProcessed v rest bestScore
  | .ok f :: rest, bestScore =>
      let report := validate_frame v f
      let score' := if bestScore < report.score.overall
        then report.score.overall else bestScore
      report :: (if 9/10 ≤ score' then [] else bestOfProcessed v rest score')

/-- The iteration of `auto_capture_with_quality`, structural on the number
of remaining attempts: timeout check first, then capture, then the
threshold test; capture failures just consume the attempt. -/
def autoCaptureGo (v : QualityValidator) (threshold : ℚ)
    (timedOut : ℕ → Bool) (cap : ℕ → Except String CameraFrame)
    (timeoutSecs maxTries : ℕ) :
    ℕ → ℕ → Except String CaptureQualityResult
  | _, 0 => .error ("Failed to capture frame meeting quality threshold " ++
      toString threshold ++ " after " ++ toString maxTries ++ " attempts")
  | attempt, rem + 1 =>
      if timedOut attempt then
        .error ("Auto-capture timeout after " ++ toString timeoutSecs ++
          " seconds")
      else
        match cap attempt with
        | .ok frame =>
            let report := validate_frame v frame
            if threshold ≤ report.score.overall then
              .ok ⟨frame, report, attempt⟩
            else autoCaptureGo v threshold timedOut cap timeoutSecs maxTries
              (attempt + 1) rem
        | .error _ => autoCaptureGo v threshold timedOut cap timeoutSecs
            maxTries (attempt + 1) rem

/-- `auto_capture_with_quality`: threshold default 0.7, attempt budget
`min(maxAttempts, 50)` default 20, timeout default 30 s. -/
def auto_capture_with_quality (v : QualityValidator)
    (min_quality_threshold : Option ℚ) (max_attempts : Option ℕ)
    (timeout_seconds : Option ℕ) (timedOut : ℕ → Bool)
    (cap : ℕ → Except String CameraFrame) :
    Except String CaptureQualityResult :=
  let threshold := min_quality_threshold.getD (7/10)
  let maxTries := min (max_attempts.getD 20) 50
  let timeout := timeout_seconds.getD 30
  autoCaptureGo v threshold timedOut cap timeout maxTries 1 maxTries

/-- `commands/quality.rs::QualityTrendAnalysis`. -/
structure QualityTrendAnalysis where
  samples_analyzed : ℕ
  average_quality : ℚ
  average_blur_score : ℚ
  average_exposure_score : ℚ
  quality_variance : ℚ
  stability_score : ℚ
  best_score : ℚ
  worst_score : ℚ
  acceptable_ratio : ℚ
  deriving DecidableEq, Repr

/-- The sampling loop of `analyze_quality_trends`: one iteration per
planned sample, pushing a report on capture success and skipping the
iteration on failure. -/
def collectTrendReports (v : QualityValidator) :
    List (Except String CameraFrame) → List QualityReport
  | [] => []
  | .ok f :: rest => validate_frame v f :: collectTrendReports v rest
  | .error _ :: rest => collectTrendReports v rest

/-- `analyze_quality_trends`: exactly `min(n, 20)` capture iterations
(default 10); fails only if every capture failed. -/
def analyze_quality_trends (v : QualityValidator) (num_samples : Option ℕ)
    (cap : ℕ → Except String CameraFrame) :
    Except String QualityTrendAnalysis :=
  let samples := min (num_samples.getD 10) 20
  let reports := collectTrendReports v
    ((List.range samples).map fun i => cap (i+1))
  if reports.isEmpty then .error "No valid samples captured for trend analysis"
  else
    let scores := reports.map fun r => r.score.overall
    let blur_scores := reports.map fun r => r.score.blur
    let exposure_scores := reports.map fun r => r.score.exposure
    let avg_quality := scores.sum / (scores.length : ℚ)
    let avg_blur := blur_scores.sum / (blur_scores.length : ℚ)
    let avg_exposure := exposure_scores.sum / (exposure_scores.length : ℚ)
    let quality_variance :=
      ((scores.map fun x => (x - avg_quality) * (x - avg_quality)).sum) /
        (scores.length : ℚ)
    .ok { samples_analyzed := reports.length
          average_quality := avg_quality
          average_blur_score := avg_blur
          average_exposure_score := avg_exposure
          quality_variance := quality_variance
          stability_score := ratClamp (1 - ratSqrt quality_variance) 0 1
          best_score := scores.foldl ratMax 0
          worst_score := scores.foldl ratMin 1
          acceptable_ratio :=
            ((reports.countP fun r => r.is_acceptable) : ℚ) /
              ((reports.length : ℚ)) }

/-! ## Result extractors and concrete inputs used by the theorems -/

/-- The overall score of a successful capture result (1 for errors; only
read under a success hypothesis). -/
def scoreOfCapture : Except String CaptureQualityResult → ℚ
  | .ok r => r.quality_report.score.overall
  | .error _ => 1

/-- The `attempts_used` field of a successful capture result. -/
def attemptsOfCapture : Except String CaptureQualityResult → ℕ
  | .ok r => r.attempts_used
  | .error _ => 0

/-- The `samples_analyzed` field of a successful trend analysis. -/
def samplesAnalyzedOf : Except String QualityTrendAnalysis → ℕ
  | .ok t => t.samples_analyzed
  | .error _ => 0

/-- The overall scores of a list of reports. -/
def reportScores (l : List QualityReport) : List ℚ :=
  l.map fun r => r.score.overall

/-- The score the best-of-N loop associates with its accumulator (0 when
no frame has been kept yet, mirroring the loop's initial `best_score`). -/
def okScoreOpt : Option (CameraFrame × QualityReport) → ℚ
  | none => 0
  | some p => p.2.score.overall

/-- A frame that violates the spec §3/§7 frame invariant: empty buffer,
zero dimension, or buffer length different from `width*height*3`. -/
def frameInvalid (f : CameraFrame) : Prop :=
  f.data = [] ∨ f.width = 0 ∨ f.height = 0 ∨
    f.data.length ≠ f.width * f.height * 3

instance (f : CameraFrame) : Decidable (frameInvalid f) := by
  unfold frameInvalid; infer_instance

/-- One RGB pixel with equal channels. -/
def grayPix (v : ℕ) : List ℕ := [v, v, v]

/-- A concrete 4×4 test frame: a uniform gray top row (so the sampled
noise triplet has zero variance) over a 0/255 checkerboard (so the
Laplacian variance is far above the `Sharp` breakpoint). -/
def F44 : CameraFrame :=
  { data :=
      (grayPix 128 ++ grayPix 128 ++ grayPix 128 ++ grayPix 128) ++
      (grayPix 0 ++ grayPix 255 ++ grayPix 0 ++ grayPix 255) ++
      (grayPix 255 ++ grayPix 0 ++ grayPix 255 ++ grayPix 0) ++
      (grayPix 0 ++ grayPix 255 ++ grayPix 0 ++ grayPix 255)
    width := 4
    height := 4 }

/-- A concrete invalid frame: 2×2 dimensions with an empty pixel buffer. -/
def FEmpty : CameraFrame := { data := [], width := 2, height := 2 }

/-- A concrete uniform gray 2×2 frame (12 bytes of 128). -/
def F22gray : CameraFrame :=
  { data := List.replicate 12 128, width := 2, height := 2 }

/-- A configuration accepting `F44`: the default thresholds with the
minimum resolution lowered to 4×4. -/
def cfgA : ValidationConfig :=
  { ValidationConfig.default with min_resolution := (4, 4) }

/-- `cfgA` with the minimum resolution raised strictly above `F44`'s
actual 4×4 resolution. -/
def cfgB : ValidationConfig :=
  { cfgA with min_resolution := (5, 5) }

/-- A capture oracle whose first attempt fails and whose later attempts
succeed. -/
def capFailFirst : ℕ → Except String CameraFrame :=
  fun i => if i = 1 then .error "Camera not available" else .ok FEmpty

/-- A capture oracle that always succeeds with `FEmpty`. -/
def capAlwaysEmpty : ℕ → Except String CameraFrame := fun _ => .ok FEmpty

/-- The non-default configuration DTO of the round-trip failing input
(the values of the repository's own config-update test). -/
def hdDto : ValidationConfigDto :=
  { blur_threshold := 8/10
    exposure_threshold := 8/10
    overall_threshold := 9/10
    min_width := 1920
    min_height := 1080
    max_noise_level := 2/10 }

/-! ## Helper lemmas -/

theorem ratClamp01_nonneg (x : ℚ) : 0 ≤ ratClamp x 0 1 := by
  unfold ratClamp; split_ifs <;> linarith

theorem ratClamp01_le_one (x : ℚ) : ratClamp x 0 1 ≤ 1 := by
  unfold ratClamp; split_ifs <;> linarith

theorem ratClamp01_pos (x : ℚ) (h : 0 < x) : 0 < ratClamp x 0 1 := by
  unfold ratClamp; split_ifs <;> linarith

theorem blurLevel_score_bounds (l : BlurLevel) :
    1/10 ≤ l.quality_score ∧ l.quality_score ≤ 1 := by
  cases l <;> norm_num [BlurLevel.quality_score]

theorem estimate_noise_level_bounds (d : List ℕ) :
    0 ≤ estimate_noise_level d ∧ estimate_noise_level d ≤ 1 := by
  unfold estimate_noise_level
  by_cases h1 : d.length < 9
  · simp [h1]
  · rw [if_neg h1]
    by_cases h2 : ((strideIndices d.length).filterMap fun i =>
        if i + 8 < d.length then some (tripletVariance d i) else none).isEmpty
    · rw [if_pos h2]; norm_num
    · rw [if_neg h2]; exact ⟨ratClamp01_nonneg _, ratClamp01_le_one _⟩

theorem listVariance_triple_eq (p : ℚ) : listVariance [p, p, p] = 0 := by
  simp only [listVariance, listMean, List.isEmpty_cons, List.sum_cons,
    List.map_cons, List.map_nil, List.sum_nil, List.length_cons,
    List.length_nil, if_false, Bool.false_eq_true]
  ring_nf

/-! ## Claims -/

/-- C4: for every overall score in [0,1] the quality grade is the fixed
band table (Excellent ≥0.9, VeryGood ≥0.8, Good ≥0.7, Fair ≥0.6,
Poor ≥0.4, VeryPoor otherwise), `get_grade` reads only the overall score,
and the grade is monotone in the score. -/
theorem claim_C4 :
    (∀ s : QualityScore, s.get_grade = gradeOfOverall s.overall) ∧
    (∀ s : ℚ, 0 ≤ s → s ≤ 1 →
      ((gradeOfOverall s = .Excellent ↔ 9/10 ≤ s) ∧
       (gradeOfOverall s = .VeryGood ↔ 8/10 ≤ s ∧ s < 9/10) ∧
       (gradeOfOverall s = .Good ↔ 7/10 ≤ s ∧ s < 8/10) ∧
       (gradeOfOverall s = .Fair ↔ 6/10 ≤ s ∧ s < 7/10) ∧
       (gradeOfOverall s = .Poor ↔ 4/10 ≤ s ∧ s < 6/10) ∧
       (gradeOfOverall s = .VeryPoor ↔ s < 4/10))) ∧
    (∀ s t : ℚ, s ≤ t →
      (gradeOfOverall s).rank ≤ (gradeOfOverall t).rank) := by
  refine ⟨fun s => rfl, ?_, ?_⟩
  · intro s _ _
    unfold gradeOfOverall
    split_ifs <;>
      refine ⟨?_, ?_, ?_, ?_, ?_, ?_⟩ <;>
        constructor <;>
          intro h' <;>
            first
              | rfl
              | linarith
              | (obtain ⟨ha, hb⟩ := h'; linarith)
              | (exact ⟨by linarith, by linarith⟩)
              | (simp at h')
  · intro s t hst
    unfold gradeOfOverall
    split_ifs <;>
      simp only [QualityGrade.rank] <;>
        first
          | omega
          | (exfalso; linarith)

/-- C4 witness: concrete band membership and monotonicity instances
obtained from `claim_C4`. -/
theorem claim_C4_witness :
    gradeOfOverall (93/100) = QualityGrade.Excellent ∧
    (gradeOfOverall (1/2)).rank ≤ (gradeOfOverall (3/4)).rank :=
  ⟨(claim_C4.2.1 (93/100) (by norm_num) (by norm_num)).1.mpr (by norm_num),
    claim_C4.2.2 (1/2) (3/4) (by norm_num)⟩

/-- C3: for every valid frame, each sub-score placed in the report and the
overall score lie in [0,1], and the overall score is exactly the weighted
sum `blur*0.35 + exposure*0.35 + composition*0.15 + technical*0.15`
clamped to [0,1]. -/
theorem claim_C3 (v : QualityValidator) (f : CameraFrame)
    (hf : frameWellFormed f) :
    (0 ≤ (validate_frame v f).score.blur ∧
      (validate_frame v f).score.blur ≤ 1) ∧
    (0 ≤ (validate_frame v f).score.exposure ∧
      (validate_frame v f).score.exposure ≤ 1) ∧
    (0 ≤ (validate_frame v f).score.composition ∧
      (validate_frame v f).score.composition ≤ 1) ∧
    (0 ≤ (validate_frame v f).score.technical ∧
      (validate_frame v f).score.technical ≤ 1) ∧
    (0 ≤ (validate_frame v f).score.overall ∧
      (validate_frame v f).score.overall ≤ 1) ∧
    (validate_frame v f).score.overall =
      ratClamp ((validate_frame v f).score.blur * (35/100) +
        (validate_frame v f).score.exposure * (35/100) +
        (validate_frame v f).score.composition * (15/100) +
        (validate_frame v f).score.technical * (15/100)) 0 1 := by
  refine ⟨⟨?_, ?_⟩, ⟨?_, ?_⟩, ⟨?_, ?_⟩, ⟨?_, ?_⟩, ⟨?_, ?_⟩, ?_⟩
  · exact le_trans (by norm_num) (blurLevel_score_bounds _).1
  · exact (blurLevel_score_bounds _).2
  · exact ratClamp01_nonneg _
  · exact ratClamp01_le_one _
  · exact ratClamp01_nonneg _
  · exact ratClamp01_le_one _
  · exact (estimate_noise_level_bounds f.data).1
  · exact (estimate_noise_level_bounds f.data).2
  · exact ratClamp01_nonneg _
  · exact ratClamp01_le_one _
  · rfl

/-- C3 witness: the bounds instantiated at the concrete valid frame
`F44`. -/
theorem claim_C3_witness :
    frameWellFormed F44 ∧
    (0 ≤ (validate_frame QualityValidator.default F44).score.overall ∧
      (validate_frame QualityValidator.default F44).score.overall ≤ 1) :=
  ⟨by decide, (claim_C3 QualityValidator.default F44 (by decide)).2.2.2.2.1⟩

theorem estimate_noise_level_uniform (d : List ℕ) (val : ℕ)
    (h9 : 9 ≤ d.length) (hall : ∀ x ∈ d, x = val) :
    estimate_noise_level d = 0 := by
  have hget : ∀ i, i < d.length → d.getD i 0 = val := by
    intro i hi
    rw [List.getD_eq_getElem d 0 hi]
    exact hall _ (List.getElem_mem hi)
  have htrip : ∀ i, i + 8 < d.length → tripletVariance d i = 0 := by
    intro i hi
    unfold tripletVariance
    rw [hget i (by omega), hget (i+1) (by omega), hget (i+2) (by omega),
      hget (i+3) (by omega), hget (i+4) (by omega), hget (i+5) (by omega),
      hget (i+6) (by omega), hget (i+7) (by omega), hget (i+8) (by omega)]
    exact listVariance_triple_eq _
  unfold estimate_noise_level
  rw [if_neg (by omega)]
  set nv := (strideIndices d.length).filterMap fun i =>
    if i + 8 < d.length then some (tripletVariance d i) else none with hnv
  have hmem : ∀ x ∈ nv, x = 0 := by
    intro x hx
    rw [hnv] at hx
    obtain ⟨i, hi_mem, hi_eq⟩ := List.mem_filterMap.mp hx
    by_cases h : i + 8 < d.length
    · rw [if_pos h] at hi_eq
      rw [Option.some_inj] at hi_eq
      rw [← hi_eq]
      exact htrip i h
    · rw [if_neg h] at hi_eq
      simp at hi_eq
  have hm0 : tripletVariance d 0 ∈ nv := by
    rw [hnv]
    refine List.mem_filterMap.mpr ⟨0, ?_, ?_⟩
    · unfold strideIndices
      refine List.mem_map.mpr ⟨0, List.mem_range.mpr (by omega), by norm_num⟩
    · rw [if_pos (by omega)]
  have hne : ¬ nv.isEmpty = true := by
    simp only [List.isEmpty_iff]
    exact List.ne_nil_of_mem hm0
  rw [if_neg hne]
  have hmean : listMean nv = 0 := by
    unfold listMean
    rw [if_neg hne, List.sum_eq_zero hmem]
    exact zero_div _
  rw [hmean]
  norm_num [ratClamp]

/-- C9: the technical sub-score written into the report is the raw noise
estimate itself (the source passes `noise_estimate` although its comment
says "inverted noise"), so a noisier frame gets a strictly higher
technical sub-score, and a uniform (noise-free) frame gets technical
sub-score 0. -/
theorem claim_C9 :
    (∀ (v : QualityValidator) (f : CameraFrame),
      (validate_frame v f).score.technical = estimate_noise_level f.data) ∧
    (∀ (v : QualityValidator) (f g : CameraFrame),
      estimate_noise_level f.data < estimate_noise_level g.data →
      (validate_frame v f).score.technical <
        (validate_frame v g).score.technical) ∧
    (∀ (v : QualityValidator) (f : CameraFrame) (val : ℕ),
      9 ≤ f.data.length → (∀ x ∈ f.data, x = val) →
      (validate_frame v f).score.technical = 0) := by
  have h1 : ∀ (v : QualityValidator) (f : CameraFrame),
      (validate_frame v f).score.technical = estimate_noise_level f.data :=
    fun _ _ => rfl
  refine ⟨h1, ?_, ?_⟩
  · intro v f g h
    rw [h1, h1]
    exact h
  · intro v f val h9 hall
    rw [h1]
    exact estimate_noise_level_uniform f.data val h9 hall

/-- C9 witness: the uniform gray frame `F22gray` has technical sub-score
0 in its report. -/
theorem claim_C9_witness :
    9 ≤ F22gray.data.length ∧
    (validate_frame QualityValidator.default F22gray).score.technical = 0 :=
  ⟨by decide,
    claim_C9.2.2 QualityValidator.default F22gray 128 (by decide) (by decide)⟩

/-- C2 counterexample: the invalid frame `FEmpty` (empty buffer, claimed
2×2) is not rejected: `validate_provided_frame` analyzes it and returns a
report (with the degenerate noise estimate 1.0), not an error. -/
theorem claim_C2_counterexample :
    frameInvalid FEmpty ∧
    validate_provided_frame QualityValidator.default FEmpty =
      .ok (validate_frame QualityValidator.default FEmpty) ∧
    (validate_frame QualityValidator.default
      FEmpty).technical_details.noise_estimate = 1 := by
  refine ⟨Or.inl rfl, rfl, ?_⟩
  with_unfolding_all decide

/-- C2 (amended): no frame-shape validation exists in the quality path:
an invalid frame is never rejected with an error before analysis.  In
particular, every frame with an empty pixel buffer and positive claimed
dimensions — invalid under the spec's invariant, and a shape the source
analyzes without panicking (all its loops are empty or index-guarded
there) — is analyzed anyway: `validate_provided_frame` returns `Ok` with
a degenerate report (noise estimate 1.0, color-balance score 0).  Other
invalid shapes (buffer length not a multiple of 3, zero dimensions) do
not produce the spec's validation error either, but the source can crash
on unguarded indexing or `u32` underflow instead of returning, so they
are outside this theorem's domain. -/
theorem claim_C2 (v : QualityValidator) (f : CameraFrame)
    (hd : f.data = []) (hw : 1 ≤ f.width) (hh : 1 ≤ f.height) :
    frameInvalid f ∧
    validate_provided_frame v f = .ok (validate_frame v f) ∧
    (validate_frame v f).technical_details.noise_estimate = 1 ∧
    ((validate_frame v f).technical_details.color_distribution).color_balance_score = 0 := by
  refine ⟨Or.inl hd, rfl, ?_, ?_⟩
  · show estimate_noise_level f.data = 1
    rw [hd]
    decide
  · show (analyze_color_distribution f.data).color_balance_score = 0
    rw [hd]
    decide

/-- C2 witness: `claim_C2` instantiated at the concrete invalid frame
`FEmpty` (empty buffer, claimed 2×2). -/
theorem claim_C2_witness :
    frameInvalid FEmpty ∧
    (validate_frame QualityValidator.default
      FEmpty).technical_details.color_distribution.color_balance_score = 0 :=
  ⟨(claim_C2 QualityValidator.default FEmpty rfl (by decide) (by decide)).1,
    (claim_C2 QualityValidator.default FEmpty rfl (by decide)
      (by decide)).2.2.2⟩

/-- C6 (config round-trip failure): updating the configuration stores it
in the validator state, yet `get_quality_config` returns the default
configuration regardless, so the round trip fails for any non-default
configuration such as `hdDto`. -/
theorem claim_C6 :
    (update_quality_config hdDto QualityValidator.default).1.config =
      configOfDto hdDto ∧
    get_quality_config
      (update_quality_config hdDto QualityValidator.default).1 =
      .ok (dtoOfConfig ValidationConfig.default) ∧
    dtoOfConfig ValidationConfig.default ≠ hdDto := by
  refine ⟨rfl, rfl, ?_⟩
  with_unfolding_all decide

theorem is_frame_acceptable_false_of_width (cfg : ValidationConfig)
    (q : QualityScore) (tech : TechnicalDetails)
    (h : tech.resolution.1 < cfg.min_resolution.1) :
    is_frame_acceptable cfg q tech = false := by
  unfold is_frame_acceptable
  rw [decide_eq_false (by omega : ¬ cfg.min_resolution.1 ≤ tech.resolution.1)]
  simp

/-- C5 (amended): raising `min_resolution` strictly above the frame's
actual width forces `is_acceptable` to false, and the blur, exposure and
technical sub-scores and the full analyzer metrics are unchanged — but
the composition score is recomputed against the new minimum resolution
(via the resolution-adequacy component of `analyze_composition`) and can
change, and the overall score with it. -/
theorem claim_C5 (f : CameraFrame) (c : ValidationConfig) (mw mh : ℕ)
    (hacc : (validate_frame (QualityValidator.new c) f).is_acceptable = true)
    (hw : f.width < mw) :
    (validate_frame (QualityValidator.new
      { c with min_resolution := (mw, mh) }) f).is_acceptable = false ∧
    (validate_frame (QualityValidator.new
      { c with min_resolution := (mw, mh) }) f).score.blur =
      (validate_frame (QualityValidator.new c) f).score.blur ∧
    (validate_frame (QualityValidator.new
      { c with min_resolution := (mw, mh) }) f).score.exposure =
      (validate_frame (QualityValidator.new c) f).score.exposure ∧
    (validate_frame (QualityValidator.new
      { c with min_resolution := (mw, mh) }) f).score.technical =
      (validate_frame (QualityValidator.new c) f).score.technical ∧
    (validate_frame (QualityValidator.new
      { c with min_resolution := (mw, mh) }) f).blur_metrics =
      (validate_frame (QualityValidator.new c) f).blur_metrics ∧
    (validate_frame (QualityValidator.new
      { c with min_resolution := (mw, mh) }) f).exposure_metrics =
      (validate_frame (QualityValidator.new c) f).exposure_metrics := by
  refine ⟨?_, rfl, rfl, rfl, rfl, rfl⟩
  exact is_frame_acceptable_false_of_width _ _ _ hw

set_option maxRecDepth 8000 in
/-- C5 counterexample: the valid frame `F44` is acceptable under `cfgA`
(minimum resolution 4×4); under `cfgB`, identical except the minimum
resolution is raised to 5×5 (strictly above the frame's 4×4), the frame
becomes unacceptable — but its composition score changes too, refuting
"all raw scores unchanged". -/
theorem claim_C5_counterexample :
    frameWellFormed F44 ∧
    cfgB = { cfgA with min_resolution := (5, 5) } ∧
    F44.width < cfgB.min_resolution.1 ∧
    F44.height < cfgB.min_resolution.2 ∧
    (validate_frame (QualityValidator.new cfgA) F44).is_acceptable = true ∧
    (validate_frame (QualityValidator.new cfgB) F44).is_acceptable = false ∧
    (validate_frame (QualityValidator.new cfgB) F44).score.composition ≠
      (validate_frame (QualityValidator.new cfgA) F44).score.composition := by
  refine ⟨by decide, rfl, by decide, by decide, ?_, ?_, ?_⟩ <;>
    with_unfolding_all decide

set_option maxRecDepth 8000 in
/-- C5 witness: `claim_C5` instantiated at `F44` and `cfgA` with the
minimum resolution raised to 5×5. -/
theorem claim_C5_witness :
    F44.width < 5 ∧
    (validate_frame (QualityValidator.new
      { cfgA with min_resolution := (5, 5) }) F44).is_acceptable = false ∧
    (validate_frame (QualityValidator.new
      { cfgA with min_resolution := (5, 5) }) F44).score.technical =
      (validate_frame (QualityValidator.new cfgA) F44).score.technical := by
  have h := claim_C5 F44 cfgA 5 5 (by with_unfolding_all decide) (by decide)
  exact ⟨by decide, h.1, h.2.2.2.1⟩

theorem autoCaptureGo_ok_score (v : QualityValidator) (threshold : ℚ)
    (timedOut : ℕ → Bool) (cap : ℕ → Except String CameraFrame)
    (ts mt : ℕ) :
    ∀ (rem attempt : ℕ),
      (autoCaptureGo v threshold timedOut cap ts mt attempt rem).isOk = true →
      threshold ≤ scoreOfCapture
        (autoCaptureGo v threshold timedOut cap ts mt attempt rem) := by
  intro rem
  induction rem with
  | zero =>
      intro attempt h
      exact Bool.noConfusion h
  | succ n ih =>
      intro attempt h
      unfold autoCaptureGo at h ⊢
      by_cases ht : timedOut attempt = true
      · rw [if_pos ht] at h
        exact Bool.noConfusion h
      · rw [if_neg ht] at h ⊢
        revert h
        cases hc : cap attempt with
        | ok frame =>
            intro h
            dsimp only at h ⊢
            by_cases hq :
                threshold ≤ (validate_frame v frame).score.overall
            · simp only [if_pos hq]
              exact hq
            · simp only [if_neg hq] at h ⊢
              exact ih (attempt + 1) h
        | error e =>
            intro h
            exact ih (attempt + 1) h

/-- C1: whenever the threshold-gated auto-capture returns successfully,
the returned report's overall score is at least the requested threshold
(0.7 when none is given); all other outcomes are errors (attempt-budget
exhaustion or timeout). -/
theorem claim_C1 (v : QualityValidator) (thr : Option ℚ) (ma ts : Option ℕ)
    (timedOut : ℕ → Bool) (cap : ℕ → Except String CameraFrame)
    (h : (auto_capture_with_quality v thr ma ts timedOut cap).isOk = true) :
    thr.getD (7/10) ≤
      scoreOfCapture (auto_capture_with_quality v thr ma ts timedOut cap) :=
  autoCaptureGo_ok_score v (thr.getD (7/10)) timedOut cap
    (ts.getD 30) (min (ma.getD 20) 50) (min (ma.getD 20) 50) 1 h

set_option maxRecDepth 8000 in
/-- C1 witness: with a capture oracle that always yields the frame
`FEmpty` and threshold 0, the loop succeeds on the first attempt and the
theorem's bound holds there. -/
theorem claim_C1_witness :
    (auto_capture_with_quality QualityValidator.default (some 0) none none
      (fun _ => false) capAlwaysEmpty).isOk = true ∧
    (0:ℚ) ≤ scoreOfCapture (auto_capture_with_quality
      QualityValidator.default (some 0) none none
      (fun _ => false) capAlwaysEmpty) := by
  have h : (auto_capture_with_quality QualityValidator.default (some 0)
      none none (fun _ => false) capAlwaysEmpty).isOk = true := by
    with_unfolding_all decide
  exact ⟨h, claim_C1 QualityValidator.default (some 0) none none
    (fun _ => false) capAlwaysEmpty h⟩

/-- C10: on every successful run of the best-of-N operation the
`attempts_used` field is the full planned budget `min(n, 10)` (default
n = 5), regardless of how many iterations actually ran (the early-exit
path included). -/
theorem claim_C10 (v : QualityValidator) (n : Option ℕ)
    (cap : ℕ → Except String CameraFrame)
    (h : (capture_best_quality_frame v n cap).isOk = true) :
    attemptsOfCapture (capture_best_quality_frame v n cap) =
      min (n.getD 5) 10 := by
  unfold capture_best_quality_frame at h ⊢
  dsimp only at h ⊢
  revert h
  cases hb : bestOfLoop v
      ((List.range (min (n.getD 5) 10)).map fun i => cap (i+1)) none 0 with
  | none =>
      intro h
      exact Bool.noConfusion h
  | some p =>
      intro h
      obtain ⟨f, r⟩ := p
      rfl

set_option maxRecDepth 8000 in
/-- C10 witness: a run with the budget 1 and an always-succeeding oracle
reports `attempts_used = min 1 10`. -/
theorem claim_C10_witness :
    (capture_best_quality_frame QualityValidator.default (some 1)
      capAlwaysEmpty).isOk = true ∧
    attemptsOfCapture (capture_best_quality_frame QualityValidator.default
      (some 1) capAlwaysEmpty) = min 1 10 := by
  have h : (capture_best_quality_frame QualityValidator.default (some 1)
      capAlwaysEmpty).isOk = true := by
    with_unfolding_all decide
  exact ⟨h, claim_C10 QualityValidator.default (some 1) capAlwaysEmpty h⟩

theorem collectTrendReports_length (v : QualityValidator) :
    ∀ os : List (Except String CameraFrame),
      (collectTrendReports v os).length = os.countP Except.isOk := by
  intro os
  induction os with
  | nil => rfl
  | cons o rest ih =>
      cases o with
      | ok f =>
          simp [collectTrendReports, List.countP_cons, ih, Except.isOk,
            Except.toBool]
      | error e =>
          simp [collectTrendReports, List.countP_cons, ih, Except.isOk,
            Except.toBool]

/-- C7 (amended): the trend loop issues exactly `min(n, 20)` capture
attempts (default 10); a capture failure consumes its iteration, so a
successful analysis reports exactly as many samples as there were capture
successes among those attempts (possibly fewer than `n`), and the
operation fails exactly when every attempt's capture failed. -/
theorem claim_C7 (v : QualityValidator) (n : Option ℕ)
    (cap : ℕ → Except String CameraFrame) :
    ((analyze_quality_trends v n cap).isOk = true →
      samplesAnalyzedOf (analyze_quality_trends v n cap) =
        ((List.range (min (n.getD 10) 20)).map fun i => cap (i+1)).countP
          Except.isOk) ∧
    ((analyze_quality_trends v n cap).isOk = false ↔
      ((List.range (min (n.getD 10) 20)).map fun i => cap (i+1)).countP
        Except.isOk = 0) := by
  have hlen := collectTrendReports_length v
    ((List.range (min (n.getD 10) 20)).map fun i => cap (i+1))
  unfold analyze_quality_trends
  dsimp only
  by_cases he : (collectTrendReports v
      ((List.range (min (n.getD 10) 20)).map fun i => cap (i+1))).isEmpty
      = true
  · rw [if_pos he]
    refine ⟨fun h => Bool.noConfusion h, fun _ => ?_, fun _ => rfl⟩
    rw [← hlen, List.isEmpty_iff.mp he]
    rfl
  · rw [if_neg he]
    refine ⟨fun _ => hlen, fun h => Bool.noConfusion h, fun hc => ?_⟩
    exfalso
    apply he
    rw [List.isEmpty_iff]
    exact List.length_eq_zero.mp (hlen.trans hc)

set_option maxRecDepth 8000 in
/-- C7 counterexample: with `n = 2` and an oracle whose first capture
fails and second succeeds, the run succeeds yet gathers only one sample —
the failed attempt consumed a slot instead of being retried until two
successes were collected. -/
theorem claim_C7_counterexample :
    (analyze_quality_trends QualityValidator.default (some 2)
      capFailFirst).isOk = true ∧
    samplesAnalyzedOf (analyze_quality_trends QualityValidator.default
      (some 2) capFailFirst) = 1 := by
  constructor <;> with_unfolding_all decide

set_option maxRecDepth 8000 in
/-- C7 witness: `claim_C7` instantiated at the mixed-outcome oracle. -/
theorem claim_C7_witness :
    samplesAnalyzedOf (analyze_quality_trends QualityValidator.default
      (some 2) capFailFirst) =
      ((List.range (min 2 20)).map fun i => capFailFirst (i+1)).countP
        Except.isOk :=
  (claim_C7 QualityValidator.default (some 2) capFailFirst).1
    (by with_unfolding_all decide)

theorem le_ratMax_left (a b : ℚ) : a ≤ ratMax a b := by
  unfold ratMax; split_ifs <;> linarith

theorem le_ratMax_right (a b : ℚ) : b ≤ ratMax a b := by
  unfold ratMax; split_ifs <;> linarith

theorem le_foldl_ratMax_init : ∀ (l : List ℚ) (b : ℚ), b ≤ l.foldl ratMax b := by
  intro l
  induction l with
  | nil => intro b; exact le_refl b
  | cons a t ih =>
      intro b
      exact le_trans (le_ratMax_left b a) (ih (ratMax b a))

theorem foldl_ratMax_le_of_mem :
    ∀ (l : List ℚ) (b x : ℚ), x ∈ l → x ≤ l.foldl ratMax b := by
  intro l
  induction l with
  | nil => intro b x hx; cases hx
  | cons a t ih =>
      intro b x hx
      rcases List.mem_cons.mp hx with rfl | hx'
      · exact le_trans (le_ratMax_right b x) (le_foldl_ratMax_init t (ratMax b x))
      · exact ih (ratMax b a) x hx'

theorem validate_frame_overall_pos (v : QualityValidator) (f : CameraFrame) :
    0 < (validate_frame v f).score.overall := by
  refine ratClamp01_pos _ ?_
  have hb : 1/10 ≤ (v.blur_detector.analyze_frame f).quality_score :=
    (blurLevel_score_bounds _).1
  have he : 0 ≤ (v.exposure_analyzer.analyze_frame f).quality_score :=
    ratClamp01_nonneg _
  have hc : 0 ≤ analyze_composition v.config (analyze_technical_aspects f) :=
    ratClamp01_nonneg _
  have ht : 0 ≤ (analyze_technical_aspects f).noise_estimate :=
    (estimate_noise_level_bounds f.data).1
  linarith

theorem bestOfProcessed_ne_nil (v : QualityValidator) :
    ∀ (os : List (Except String CameraFrame)) (bs : ℚ),
      (∃ f, Except.ok f ∈ os) → bestOfProcessed v os bs ≠ [] := by
  intro os
  induction os with
  | nil =>
      rintro bs ⟨f, hf⟩
      cases hf
  | cons o rest ih =>
      rintro bs ⟨f, hf⟩
      cases o with
      | ok g => exact List.cons_ne_nil _ _
      | error e =>
          rcases List.mem_cons.mp hf with heq | hmem
          · exact Except.noConfusion heq
          · exact ih bs ⟨f, hmem⟩

theorem bestOfLoop_invariant (v : QualityValidator) :
    ∀ (os : List (Except String CameraFrame))
      (best : Option (CameraFrame × QualityReport)) (bs : ℚ),
      okScoreOpt best = bs →
      okScoreOpt (bestOfLoop v os best bs) =
        (reportScores (bestOfProcessed v os bs)).foldl ratMax bs ∧
      (bestOfLoop v os best bs = none →
        best = none ∧ bestOfProcessed v os bs = []) ∧
      (∀ p, bestOfLoop v os best bs = some p →
        best = some p ∨ p.2 ∈ bestOfProcessed v os bs) := by
  intro os
  induction os with
  | nil =>
      intro best bs hbs
      refine ⟨?_, fun h => ⟨h, rfl⟩, fun p hp => Or.inl hp⟩
      simpa [bestOfLoop, bestOfProcessed, reportScores] using hbs
  | cons o rest ih =>
      intro best bs hbs
      cases o with
      | error e => exact ih best bs hbs
      | ok f =>
          simp only [bestOfLoop, bestOfProcessed]
          by_cases hlt : bs < (validate_frame v f).score.overall
          · simp only [if_pos hlt]
            by_cases hbr : (9:ℚ)/10 ≤ (validate_frame v f).score.overall
            · simp only [if_pos hbr]
              refine ⟨?_, fun h => Option.noConfusion h, ?_⟩
              · simp [okScoreOpt, reportScores, ratMax, hlt]
              · intro p hp
                right
                cases hp
                simp [reportScores]
            · simp only [if_neg hbr]
              obtain ⟨ihA, ihB, ihD⟩ :=
                ih (some (f, validate_frame v f))
                  (validate_frame v f).score.overall rfl
              refine ⟨?_, ?_, ?_⟩
              · rw [ihA]
                simp [reportScores, ratMax, hlt]
              · intro h
                obtain ⟨h1, -⟩ := ihB h
                exact Option.noConfusion h1
              · intro p hp
                rcases ihD p hp with h1 | h2
                · cases h1
                  exact Or.inr (List.mem_cons_self _ _)
                · exact Or.inr (List.mem_cons_of_mem _ h2)
          · simp only [if_neg hlt]
            by_cases hbr : (9:ℚ)/10 ≤ bs
            · simp only [if_pos hbr]
              refine ⟨?_, ?_, fun p hp => Or.inl hp⟩
              · rw [hbs]
                simp [reportScores, ratMax, hlt]
              · intro h
                exfalso
                rw [h] at hbs
                simp [okScoreOpt] at hbs
                linarith
            · simp only [if_neg hbr]
              obtain ⟨ihA, ihB, ihD⟩ := ih best bs hbs
              refine ⟨?_, ?_, ?_⟩
              · rw [ihA]
                simp [reportScores, ratMax, hlt]
              · intro h
                exfalso
                obtain ⟨h1, -⟩ := ihB h
                rw [h1] at hbs
                simp [okScoreOpt] at hbs
                have hpos := validate_frame_overall_pos v f
                have hle := not_lt.mp hlt
                linarith
              · intro p hp
                rcases ihD p hp with h1 | h2
                · exact Or.inl h1
                · exact Or.inr (List.mem_cons_of_mem _ h2)

/-- C8: whenever at least one capture attempt of the best-of-N run
succeeds, the operation returns a report whose overall score is exactly
the running maximum of the validated attempts of that run: it bounds every
validated attempt's score from above and is attained by one of them. -/
theorem claim_C8 (v : QualityValidator) (n : Option ℕ)
    (cap : ℕ → Except String CameraFrame)
    (hs : ∃ f, Except.ok f ∈
      ((List.range (min (n.getD 5) 10)).map fun i => cap (i+1))) :
    (capture_best_quality_frame v n cap).isOk = true ∧
    scoreOfCapture (capture_best_quality_frame v n cap) =
      (reportScores (bestOfProcessed v
        ((List.range (min (n.getD 5) 10)).map fun i => cap (i+1)) 0)).foldl
        ratMax 0 ∧
    (∀ r ∈ bestOfProcessed v
        ((List.range (min (n.getD 5) 10)).map fun i => cap (i+1)) 0,
      r.score.overall ≤ scoreOfCapture (capture_best_quality_frame v n cap)) ∧
    (∃ r ∈ bestOfProcessed v
        ((List.range (min (n.getD 5) 10)).map fun i => cap (i+1)) 0,
      r.score.overall = scoreOfCapture (capture_best_quality_frame v n cap)) := by
  obtain ⟨hA, hB, hD⟩ := bestOfLoop_invariant v
    ((List.range (min (n.getD 5) 10)).map fun i => cap (i+1)) none 0 rfl
  unfold capture_best_quality_frame
  dsimp only
  cases hb : bestOfLoop v
      ((List.range (min (n.getD 5) 10)).map fun i => cap (i+1)) none 0 with
  | none =>
      exfalso
      obtain ⟨-, hproc⟩ := hB hb
      exact bestOfProcessed_ne_nil v _ 0 hs hproc
  | some p =>
      obtain ⟨f, r⟩ := p
      rw [hb] at hA
      refine ⟨rfl, hA, ?_, ?_⟩
      · intro rep hrep
        have hmem : rep.score.overall ∈ reportScores (bestOfProcessed v
            ((List.range (min (n.getD 5) 10)).map fun i => cap (i+1)) 0) :=
          List.mem_map_of_mem (fun q => q.score.overall) hrep
        exact le_of_le_of_eq
          (foldl_ratMax_le_of_mem _ 0 rep.score.overall hmem) hA.symm
      · rcases hD (f, r) hb with h1 | h2
        · exact Option.noConfusion h1
        · exact ⟨r, h2, rfl⟩

/-- C8 witness: a single-attempt run with a succeeding oracle returns
successfully; `claim_C8` applies with the success exhibited. -/
theorem claim_C8_witness :
    (capture_best_quality_frame QualityValidator.default (some 1)
      capAlwaysEmpty).isOk = true :=
  (claim_C8 QualityValidator.default (some 1) capAlwaysEmpty
    ⟨FEmpty, show Except.ok FEmpty ∈ [Except.ok FEmpty] from
      List.mem_singleton.mpr rfl⟩).1

end Crabcamera
